import Mathlib

/-!
Shallow embedding of `model.py`: the Actor / Critic networks and the
`Actor_Critics` ensemble of a multi-agent actor-critic method.

Modelling conventions:
* A 2-D tensor is a `List (List ℝ)` of rows (shape `batch × features`);
  a 1-D tensor is a `List ℝ`.  `Tensor` distinguishes the two, since
  `Actor.forward` branches on `state.dim() == 1`.
* Framework-level dimension-mismatch errors (shape checks of `nn.Linear`,
  `nn.BatchNorm1d` and `torch.cat`) are modelled by `Option`: `none` is an
  uncaught framework exception.
* The global torch RNG after `torch.manual_seed(seed)` is modelled as a
  deterministic stream of draws in `[0,1]`, addressed by a phase index and
  a position `(i, j)`; `manual_seed` is a function from the seed to such a
  stream.  Both networks of a local/target pair call `manual_seed` with the
  same seed, hence read the same stream from its start.
* Floating point is idealised as ℝ; device placement (`.to(device)`) and
  the running-statistics update side effect of batch normalisation in
  training mode are not modelled (no claim depends on them).
-/

/-- A batch of rows: shape `batch × features`. -/
abbrev Mat := List (List ℝ)

/-- A torch tensor that is either 1-D or 2-D. -/
inductive Tensor where
  | one : List ℝ → Tensor
  | two : Mat → Tensor

/-- `nn.Linear(in_features, out_features)`: weight of shape
`out_features × in_features`, bias of length `out_features`. -/
structure Linear where
  in_features : ℕ
  out_features : ℕ
  weight : Mat
  bias : List ℝ

/-- Dot product of two equally long vectors (`zipWith` mirrors the
framework's elementwise product plus sum). -/
noncomputable def dot (v w : List ℝ) : ℝ := (List.zipWith (· * ·) v w).sum

/-- One row of `x @ W.T + b`. -/
noncomputable def Linear.applyRow (l : Linear) (x : List ℝ) : List ℝ :=
  List.zipWith (fun wrow b => dot wrow x + b) l.weight l.bias

/-- `nn.Linear` forward on a batch; the framework checks that the input's
last dimension equals `in_features` and raises otherwise. -/
noncomputable def Linear.forward (l : Linear) (m : Mat) : Option Mat :=
  if ∀ r ∈ m, r.length = l.in_features then some (m.map l.applyRow) else none

/-- `nn.BatchNorm1d(num_features)`: learned scale `gamma` and shift `beta`,
running statistics, and the stability constant `eps`. -/
structure BatchNorm where
  num_features : ℕ
  gamma : List ℝ
  beta : List ℝ
  running_mean : List ℝ
  running_var : List ℝ
  eps : ℝ

/-- Mean of column `j` of a batch. -/
noncomputable def colMean (m : Mat) (j : ℕ) : ℝ := (m.map (fun r => r.getD j 0)).sum / m.length

/-- Biased variance of column `j` of a batch (the normalisation statistics
of `nn.BatchNorm1d` in training mode). -/
noncomputable def colVar (m : Mat) (j : ℕ) : ℝ :=
  (m.map (fun r => (r.getD j 0 - colMean m j) ^ 2)).sum / m.length

/-- Normalise one row given per-feature mean and variance. -/
noncomputable def BatchNorm.normalize (bn : BatchNorm) (μ σ2 : ℕ → ℝ) (r : List ℝ) : List ℝ :=
  (List.range bn.num_features).map fun j =>
    bn.gamma.getD j 0 * ((r.getD j 0 - μ j) / Real.sqrt (σ2 j + bn.eps)) + bn.beta.getD j 0

/-- `nn.BatchNorm1d` forward on a batch: batch statistics in training mode,
running statistics in evaluation mode; the framework checks that the
feature dimension equals `num_features`. -/
noncomputable def BatchNorm.forward (bn : BatchNorm) (training : Bool) (m : Mat) : Option Mat :=
  if ∀ r ∈ m, r.length = bn.num_features then
    some (m.map (bn.normalize
      (fun j => if training then colMean m j else bn.running_mean.getD j 0)
      (fun j => if training then colVar m j else bn.running_var.getD j 0)))
  else none

/-- `F.relu`. -/
noncomputable def relu (x : ℝ) : ℝ := max x 0

/-- Elementwise map over a batch. -/
noncomputable def matMap (f : ℝ → ℝ) (m : Mat) : Mat := m.map (·.map f)

/-- `hidden_init(layer)` from `model.py`: `fan_in` is
`layer.weight.data.size()[0]`, the FIRST dimension of the stored weight
(the layer's output width, not the conventional fan-in), and the result is
the pair `(-1/sqrt(fan_in), 1/sqrt(fan_in))`.  Pure function. -/
noncomputable def hidden_init (layer : Linear) : ℝ × ℝ :=
  let fan_in : ℝ := (layer.weight.length : ℝ)
  let lim : ℝ := 1 / Real.sqrt fan_in
  (-lim, lim)

/-- One draw of `uniform_(lo, hi)` from a unit-interval source `u`. -/
noncomputable def uniformSample (lo hi u : ℝ) : ℝ := lo + u * (hi - lo)

/-- A fresh `rows × cols` tensor whose entry `(i, j)` is `d i j`. -/
noncomputable def fillMat (rows cols : ℕ) (d : ℕ → ℕ → ℝ) : Mat :=
  (List.range rows).map fun i => (List.range cols).map fun j => d i j

/-- In-place `tensor.uniform_`-style refill: a tensor of the same shape as
`m` whose entry `(i, j)` is `d i j`. -/
noncomputable def fillLike (m : Mat) (d : ℕ → ℕ → ℝ) : Mat :=
  (List.range m.length).map fun i =>
    (List.range (m.getD i []).length).map fun j => d i j

/-- The `Actor` module of `model.py`: three linear layers and one
batch-normalisation stage. -/
structure Actor where
  fc1 : Linear
  fc2 : Linear
  fc3 : Linear
  bn : BatchNorm

/-- The `Critic` module of `model.py`: three linear layers and one
batch-normalisation stage. -/
structure Critic where
  fc1 : Linear
  fc2 : Linear
  fc3 : Linear
  bn : BatchNorm

/-- `Actor.reset_parameters`: refills the three weight tensors in place —
layers 1 and 2 uniformly inside the `hidden_init` bound of that layer,
layer 3 uniformly inside `[-3e-3, 3e-3]`.  `d1, d2, d3` are the unit
draws the global RNG supplies to the three `uniform_` calls.  Biases and
the batch-norm stage are not touched. -/
noncomputable def Actor.reset_parameters (A : Actor) (d1 d2 d3 : ℕ → ℕ → ℝ) : Actor :=
  let w1 := fillLike A.fc1.weight
    (fun i j => uniformSample (hidden_init A.fc1).1 (hidden_init A.fc1).2 (d1 i j))
  let w2 := fillLike A.fc2.weight
    (fun i j => uniformSample (hidden_init A.fc2).1 (hidden_init A.fc2).2 (d2 i j))
  let w3 := fillLike A.fc3.weight
    (fun i j => uniformSample (-(3 / 1000)) (3 / 1000) (d3 i j))
  { A with
    fc1 := { A.fc1 with weight := w1 }
    fc2 := { A.fc2 with weight := w2 }
    fc3 := { A.fc3 with weight := w3 } }

/-- `Critic.reset_parameters`: textually the same policy as
`Actor.reset_parameters`. -/
noncomputable def Critic.reset_parameters (C : Critic) (d1 d2 d3 : ℕ → ℕ → ℝ) : Critic :=
  let w1 := fillLike C.fc1.weight
    (fun i j => uniformSample (hidden_init C.fc1).1 (hidden_init C.fc1).2 (d1 i j))
  let w2 := fillLike C.fc2.weight
    (fun i j => uniformSample (hidden_init C.fc2).1 (hidden_init C.fc2).2 (d2 i j))
  let w3 := fillLike C.fc3.weight
    (fun i j => uniformSample (-(3 / 1000)) (3 / 1000) (d3 i j))
  { C with
    fc1 := { C.fc1 with weight := w1 }
    fc2 := { C.fc2 with weight := w2 }
    fc3 := { C.fc3 with weight := w3 } }

/-- `Actor.forward`: a 1-D state is promoted to a batch of one by
`torch.unsqueeze(state, 0)`; then linear 1, relu, batch norm, linear 2,
relu, linear 3, tanh. -/
noncomputable def Actor.forward (A : Actor) (training : Bool) (state : Tensor) : Option Mat :=
  let m := match state with
    | .one v => [v]
    | .two m => m
  (A.fc1.forward m).bind fun h1 =>
  (A.bn.forward training (matMap relu h1)).bind fun hbn =>
  (A.fc2.forward hbn).bind fun h2 =>
  (A.fc3.forward (matMap relu h2)).map fun h3 =>
  matMap Real.tanh h3

/-- `torch.cat((state, action), dim=1)`: both tensors must be 2-D with equal
batch size; rows are concatenated featurewise. -/
noncomputable def catDim1 (s a : Tensor) : Option Mat :=
  match s, a with
  | .two ms, .two ma =>
      if ms.length = ma.length then some (List.zipWith (· ++ ·) ms ma) else none
  | _, _ => none

/-- `Critic.forward`: concatenate state and action along the feature
dimension, then linear 1, relu, batch norm, linear 2, relu, linear 3 with
no output activation. -/
noncomputable def Critic.forward (C : Critic) (training : Bool) (state action : Tensor) : Option Mat :=
  (catDim1 state action).bind fun xs =>
  (C.fc1.forward xs).bind fun h1 =>
  (C.bn.forward training (matMap relu h1)).bind fun hbn =>
  (C.fc2.forward hbn).bind fun h2 =>
  C.fc3.forward (matMap relu h2)

/-- `nn.Linear(inF, outF)` with its default initialisation (uniform with
bound `1/sqrt(in_features)` for both weight and bias, in torch's default
kaiming scheme); `dw, db` are the unit draws consumed from the global
RNG. -/
noncomputable def mkLinear (inF outF : ℕ) (dw db : ℕ → ℕ → ℝ) : Linear :=
  let lim : ℝ := 1 / Real.sqrt (inF : ℝ)
  { in_features := inF
    out_features := outF
    weight := fillMat outF inF (fun i j => uniformSample (-lim) lim (dw i j))
    bias := (List.range outF).map fun i => uniformSample (-lim) lim (db i 0) }

/-- `nn.BatchNorm1d(n)` with torch defaults: scale one, shift zero, running
mean zero, running variance one, `eps = 1e-5`. -/
noncomputable def mkBatchNorm (n : ℕ) : BatchNorm :=
  { num_features := n
    gamma := List.replicate n 1
    beta := List.replicate n 0
    running_mean := List.replicate n 0
    running_var := List.replicate n 1
    eps := 1 / 100000 }

/-- `Actor.__init__(input_dim, hidden_in_dim, hidden_out_dim, output_dim,
seed)` after `torch.manual_seed(seed)`: `g` is the seeded draw stream
(phase, i, j); phases 0–5 feed the default layer initialisations, phases
6–8 the `reset_parameters` refill that immediately overwrites the
weights. -/
noncomputable def mkActor (input_dim hidden_in_dim hidden_out_dim output_dim : ℕ)
    (g : ℕ → ℕ → ℕ → ℝ) : Actor :=
  let base : Actor :=
    { fc1 := mkLinear input_dim hidden_in_dim (g 0) (g 1)
      fc2 := mkLinear hidden_in_dim hidden_out_dim (g 2) (g 3)
      fc3 := mkLinear hidden_out_dim output_dim (g 4) (g 5)
      bn := mkBatchNorm hidden_in_dim }
  base.reset_parameters (g 6) (g 7) (g 8)

/-- `Critic.__init__(input_dim, hidden_in_dim, hidden_out_dim, seed)` after
`torch.manual_seed(seed)`: the third layer always has output width 1. -/
noncomputable def mkCritic (input_dim hidden_in_dim hidden_out_dim : ℕ)
    (g : ℕ → ℕ → ℕ → ℝ) : Critic :=
  let base : Critic :=
    { fc1 := mkLinear input_dim hidden_in_dim (g 0) (g 1)
      fc2 := mkLinear hidden_in_dim hidden_out_dim (g 2) (g 3)
      fc3 := mkLinear hidden_out_dim 1 (g 4) (g 5)
      bn := mkBatchNorm hidden_in_dim }
  base.reset_parameters (g 6) (g 7) (g 8)

/-- The `Actor_Critics` ensemble: local and target instances of both
network kinds. -/
structure Actor_Critics where
  actor_local : Actor
  actor_target : Actor
  critic_local : Critic
  critic_target : Critic

/-- `Actor_Critics.__init__`: each of the four constructors re-seeds the
global RNG with the same `seed` (`manualSeed` maps a seed to the draw
stream of the freshly seeded generator), and the critics receive
`critic_input_size = (state_size + action_size) * n_agents`. -/
noncomputable def mkActor_Critics (n_agents state_size action_size hidden_in_dim hidden_out_dim : ℕ)
    (seed : ℤ) (manualSeed : ℤ → ℕ → ℕ → ℕ → ℝ) : Actor_Critics :=
  let critic_input_size := (state_size + action_size) * n_agents
  { actor_local := mkActor state_size hidden_in_dim hidden_out_dim action_size (manualSeed seed)
    actor_target := mkActor state_size hidden_in_dim hidden_out_dim action_size (manualSeed seed)
    critic_local := mkCritic critic_input_size hidden_in_dim hidden_out_dim (manualSeed seed)
    critic_target := mkCritic critic_input_size hidden_in_dim hidden_out_dim (manualSeed seed) }

/-- Shape well-formedness of a linear layer. -/
def Linear.WF (l : Linear) : Prop :=
  l.weight.length = l.out_features ∧
  (∀ r ∈ l.weight, r.length = l.in_features) ∧
  l.bias.length = l.out_features

/-- Shape well-formedness of an Actor: layers compose and the batch-norm
stage sits on the first hidden width. -/
def Actor.WF (A : Actor) : Prop :=
  A.fc1.WF ∧ A.fc2.WF ∧ A.fc3.WF ∧
  A.bn.num_features = A.fc1.out_features ∧
  A.fc2.in_features = A.fc1.out_features ∧
  A.fc3.in_features = A.fc2.out_features

/-- Shape well-formedness of a Critic. -/
def Critic.WF (C : Critic) : Prop :=
  C.fc1.WF ∧ C.fc2.WF ∧ C.fc3.WF ∧
  C.bn.num_features = C.fc1.out_features ∧
  C.fc2.in_features = C.fc1.out_features ∧
  C.fc3.in_features = C.fc2.out_features

/-- The batch a tensor presents to the first linear layer: a 1-D tensor is
promoted to a single-row batch, exactly as in `Actor.forward`. -/
noncomputable def Tensor.rows : Tensor → Mat
  | .one v => [v]
  | .two m => m

/-- Every entry of the batch lies in `[lo, hi]`. -/
def InIcc (lo hi : ℝ) (m : Mat) : Prop := ∀ r ∈ m, ∀ w ∈ r, lo ≤ w ∧ w ≤ hi

/-- A constant unit-interval draw matrix, used to instantiate theorems at
concrete inputs. -/
noncomputable def constHalf2 : ℕ → ℕ → ℝ := fun _ _ => 1 / 2

/-- A constant seeded draw stream. -/
noncomputable def constHalf3 : ℕ → ℕ → ℕ → ℝ := fun _ _ _ => 1 / 2

/-- A constant `manual_seed` model. -/
noncomputable def constHalf4 : ℤ → ℕ → ℕ → ℕ → ℝ := fun _ _ _ _ => 1 / 2

/-- A concrete Actor: `Actor(3, 2, 2, 2, seed)`. -/
noncomputable def testActor : Actor := mkActor 3 2 2 2 constHalf3

/-- A concrete Critic: `Critic(4, 2, 2, seed)`. -/
noncomputable def testCritic : Critic := mkCritic 4 2 2 constHalf3

/-- A concrete linear layer whose weight has first dimension 256. -/
noncomputable def bigLayer : Linear := mkLinear 4 256 constHalf2 constHalf2

theorem tanh_bounds (x : ℝ) : -1 ≤ Real.tanh x ∧ Real.tanh x ≤ 1 := by
  have hc : 0 < Real.cosh x := Real.cosh_pos x
  rw [Real.tanh_eq_sinh_div_cosh]
  constructor
  · rw [le_div_iff₀ hc]
    have h := Real.sinh_lt_cosh (-x)
    rw [Real.sinh_neg, Real.cosh_neg] at h
    linarith
  · rw [div_le_one hc]
    exact (Real.sinh_lt_cosh x).le

theorem uniformSample_mem (lo hi u : ℝ) (hlh : lo ≤ hi) (h0 : 0 ≤ u) (h1 : u ≤ 1) :
    lo ≤ uniformSample lo hi u ∧ uniformSample lo hi u ≤ hi := by
  unfold uniformSample
  constructor
  · nlinarith
  · nlinarith

theorem hidden_init_fst (l : Linear) :
    (hidden_init l).1 = -(1 / Real.sqrt (l.weight.length : ℝ)) := rfl

theorem hidden_init_snd (l : Linear) :
    (hidden_init l).2 = 1 / Real.sqrt (l.weight.length : ℝ) := rfl

theorem hidden_init_le (l : Linear) : (hidden_init l).1 ≤ (hidden_init l).2 := by
  rw [hidden_init_fst, hidden_init_snd]
  have h : 0 ≤ 1 / Real.sqrt (l.weight.length : ℝ) :=
    one_div_nonneg.mpr (Real.sqrt_nonneg _)
  linarith

theorem length_fillLike (m : Mat) (d : ℕ → ℕ → ℝ) : (fillLike m d).length = m.length := by
  simp [fillLike]

theorem mem_fillLike (m : Mat) (d : ℕ → ℕ → ℝ) (r : List ℝ) (hr : r ∈ fillLike m d) :
    ∃ i, i < m.length ∧ r = (List.range (m.getD i []).length).map fun j => d i j := by
  unfold fillLike at hr
  rcases List.mem_map.mp hr with ⟨i, hi, hmap⟩
  exact ⟨i, List.mem_range.mp hi, hmap.symm⟩

theorem fillLike_row_length (m : Mat) (d : ℕ → ℕ → ℝ) (c : ℕ)
    (h : ∀ r ∈ m, r.length = c) : ∀ r ∈ fillLike m d, r.length = c := by
  intro r hr
  rcases mem_fillLike m d r hr with ⟨i, hi, hreq⟩
  subst hreq
  simp only [List.length_map, List.length_range]
  exact h _ (List.getD_eq_getElem m [] hi ▸ List.getElem_mem hi)

theorem mem_mem_fillLike (m : Mat) (d : ℕ → ℕ → ℝ) (r : List ℝ) (x : ℝ)
    (hr : r ∈ fillLike m d) (hx : x ∈ r) : ∃ i j, x = d i j := by
  rcases mem_fillLike m d r hr with ⟨i, _, req⟩
  subst req
  rcases List.mem_map.mp hx with ⟨j, _, hj⟩
  exact ⟨i, j, hj.symm⟩

theorem length_fillMat (rows cols : ℕ) (d : ℕ → ℕ → ℝ) :
    (fillMat rows cols d).length = rows := by
  simp [fillMat]

theorem fillMat_row_length (rows cols : ℕ) (d : ℕ → ℕ → ℝ) :
    ∀ r ∈ fillMat rows cols d, r.length = cols := by
  intro r hr
  unfold fillMat at hr
  rcases List.mem_map.mp hr with ⟨i, _, hmap⟩
  simp [← hmap]

theorem Linear.forward_some (l : Linear) (m : Mat)
    (h : ∀ r ∈ m, r.length = l.in_features) :
    l.forward m = some (m.map l.applyRow) := by
  unfold Linear.forward
  rw [if_pos h]

theorem Linear.forward_none (l : Linear) (m : Mat) (r : List ℝ)
    (hr : r ∈ m) (h : r.length ≠ l.in_features) :
    l.forward m = none := by
  unfold Linear.forward
  rw [if_neg]
  intro hall
  exact h (hall r hr)

theorem Linear.applyRow_length (l : Linear) (x : List ℝ)
    (hw : l.weight.length = l.out_features) (hb : l.bias.length = l.out_features) :
    (l.applyRow x).length = l.out_features := by
  simp [Linear.applyRow, List.length_zipWith, hw, hb]

theorem BatchNorm.forward_stats_some (bn : BatchNorm) (training : Bool) (m : Mat)
    (h : ∀ r ∈ m, r.length = bn.num_features) :
    ∃ out, bn.forward training m = some out ∧ out.length = m.length ∧
      ∀ r ∈ out, r.length = bn.num_features := by
  unfold BatchNorm.forward
  rw [if_pos h]
  refine ⟨_, rfl, by simp, ?_⟩
  intro r hr
  rcases List.mem_map.mp hr with ⟨r0, _, hmap⟩
  simp [← hmap, BatchNorm.normalize]

theorem matMap_length (f : ℝ → ℝ) (m : Mat) : (matMap f m).length = m.length := by
  simp [matMap]

theorem matMap_row_length (f : ℝ → ℝ) (m : Mat) (c : ℕ)
    (h : ∀ r ∈ m, r.length = c) : ∀ r ∈ matMap f m, r.length = c := by
  intro r hr
  rcases List.mem_map.mp hr with ⟨r0, hr0, hmap⟩
  simp [← hmap, h r0 hr0]

theorem matMap_mem (f : ℝ → ℝ) (m : Mat) (r : List ℝ) (x : ℝ)
    (hr : r ∈ matMap f m) (hx : x ∈ r) : ∃ y, x = f y := by
  rcases List.mem_map.mp hr with ⟨r0, _, hmap⟩
  subst hmap
  rcases List.mem_map.mp hx with ⟨y, _, hy⟩
  exact ⟨y, hy.symm⟩

theorem mkLinear_WF (inF outF : ℕ) (dw db : ℕ → ℕ → ℝ) : (mkLinear inF outF dw db).WF := by
  refine ⟨?_, ?_, ?_⟩
  · simp [mkLinear, length_fillMat]
  · intro r hr
    exact fillMat_row_length outF inF _ r hr
  · simp [mkLinear]

theorem reset_preserves_linear_WF (l : Linear) (w : Mat)
    (hl : l.WF) (hlen : w.length = l.weight.length)
    (hrow : ∀ r ∈ w, r.length = l.in_features) :
    Linear.WF { l with weight := w } := by
  obtain ⟨h1, h2, h3⟩ := hl
  exact ⟨by simp [hlen, h1], hrow, h3⟩

theorem Actor.reset_parameters_WF (A : Actor) (d1 d2 d3 : ℕ → ℕ → ℝ) (hA : A.WF) :
    (A.reset_parameters d1 d2 d3).WF := by
  obtain ⟨hf1, hf2, hf3, hbn, h21, h32⟩ := hA
  refine ⟨?_, ?_, ?_, hbn, h21, h32⟩
  · exact reset_preserves_linear_WF _ _ hf1 (length_fillLike _ _)
      (fillLike_row_length _ _ _ hf1.2.1)
  · exact reset_preserves_linear_WF _ _ hf2 (length_fillLike _ _)
      (fillLike_row_length _ _ _ hf2.2.1)
  · exact reset_preserves_linear_WF _ _ hf3 (length_fillLike _ _)
      (fillLike_row_length _ _ _ hf3.2.1)

theorem Critic.reset_parameters_preserves_WF (C : Critic) (d1 d2 d3 : ℕ → ℕ → ℝ) (hC : C.WF) :
    (C.reset_parameters d1 d2 d3).WF := by
  obtain ⟨hf1, hf2, hf3, hbn, h21, h32⟩ := hC
  refine ⟨?_, ?_, ?_, hbn, h21, h32⟩
  · exact reset_preserves_linear_WF _ _ hf1 (length_fillLike _ _)
      (fillLike_row_length _ _ _ hf1.2.1)
  · exact reset_preserves_linear_WF _ _ hf2 (length_fillLike _ _)
      (fillLike_row_length _ _ _ hf2.2.1)
  · exact reset_preserves_linear_WF _ _ hf3 (length_fillLike _ _)
      (fillLike_row_length _ _ _ hf3.2.1)

theorem mkActor_WF (inF h1 h2 outF : ℕ) (g : ℕ → ℕ → ℕ → ℝ) :
    (mkActor inF h1 h2 outF g).WF := by
  apply Actor.reset_parameters_WF
  exact ⟨mkLinear_WF _ _ _ _, mkLinear_WF _ _ _ _, mkLinear_WF _ _ _ _, rfl, rfl, rfl⟩

theorem mkCritic_WF (inF h1 h2 : ℕ) (g : ℕ → ℕ → ℕ → ℝ) :
    (mkCritic inF h1 h2 g).WF := by
  apply Critic.reset_parameters_preserves_WF
  exact ⟨mkLinear_WF _ _ _ _, mkLinear_WF _ _ _ _, mkLinear_WF _ _ _ _, rfl, rfl, rfl⟩

theorem actor_forward_two_spec (A : Actor) (hA : A.WF) (training : Bool) (m : Mat)
    (hm : ∀ r ∈ m, r.length = A.fc1.in_features) :
    ∃ out, A.forward training (.two m) = some out ∧
      out.length = m.length ∧
      (∀ r ∈ out, r.length = A.fc3.out_features) ∧
      (∀ r ∈ out, ∀ x ∈ r, -1 ≤ x ∧ x ≤ 1) := by
  obtain ⟨hf1, hf2, hf3, hbn, h21, h32⟩ := hA
  have e1 := A.fc1.forward_some m hm
  have h1row : ∀ r ∈ m.map A.fc1.applyRow, r.length = A.fc1.out_features := by
    intro r hr
    rcases List.mem_map.mp hr with ⟨r0, _, hmap⟩
    rw [← hmap]
    exact A.fc1.applyRow_length r0 hf1.1 hf1.2.2
  have x1row : ∀ r ∈ matMap relu (m.map A.fc1.applyRow), r.length = A.bn.num_features := by
    rw [hbn]
    exact matMap_row_length _ _ _ h1row
  obtain ⟨xb, ebn, xblen, xbrow⟩ := A.bn.forward_stats_some training _ x1row
  have xbin : ∀ r ∈ xb, r.length = A.fc2.in_features := by
    intro r hr
    rw [h21, ← hbn]
    exact xbrow r hr
  have e2 := A.fc2.forward_some xb xbin
  have h2row : ∀ r ∈ xb.map A.fc2.applyRow, r.length = A.fc2.out_features := by
    intro r hr
    rcases List.mem_map.mp hr with ⟨r0, _, hmap⟩
    rw [← hmap]
    exact A.fc2.applyRow_length r0 hf2.1 hf2.2.2
  have x2row : ∀ r ∈ matMap relu (xb.map A.fc2.applyRow), r.length = A.fc3.in_features := by
    rw [h32]
    exact matMap_row_length _ _ _ h2row
  have e3 := A.fc3.forward_some _ x2row
  refine ⟨matMap Real.tanh ((matMap relu (xb.map A.fc2.applyRow)).map A.fc3.applyRow), ?_, ?_, ?_, ?_⟩
  · show (A.fc1.forward m).bind _ = _
    rw [e1, Option.some_bind, ebn, Option.some_bind, e2, Option.some_bind, e3]
    rfl
  · rw [matMap_length, List.length_map, matMap_length, List.length_map, xblen, matMap_length,
      List.length_map]
  · apply matMap_row_length
    intro r hr
    rcases List.mem_map.mp hr with ⟨r0, _, hmap⟩
    rw [← hmap]
    exact A.fc3.applyRow_length r0 hf3.1 hf3.2.2
  · intro r hr x hx
    rcases matMap_mem Real.tanh _ r x hr hx with ⟨y, hy⟩
    rw [hy]
    exact tanh_bounds y

theorem mem_zipWith_append (s a : Mat) (r : List ℝ)
    (hr : r ∈ List.zipWith (· ++ ·) s a) : ∃ x ∈ s, ∃ y ∈ a, r = x ++ y := by
  induction s generalizing a with
  | nil => simp at hr
  | cons x xs ih =>
    cases a with
    | nil => simp at hr
    | cons y ys =>
      rw [List.zipWith_cons_cons, List.mem_cons] at hr
      rcases hr with hr | hr
      · exact ⟨x, List.mem_cons_self x xs, y, List.mem_cons_self y ys, hr⟩
      · rcases ih ys hr with ⟨x0, hx0, y0, hy0, hr0⟩
        exact ⟨x0, List.mem_cons_of_mem x hx0, y0, List.mem_cons_of_mem y hy0, hr0⟩

theorem critic_forward_two_spec (C : Critic) (hC : C.WF) (training : Bool) (s a : Mat)
    (hb : s.length = a.length) (sw aw : ℕ)
    (hs : ∀ r ∈ s, r.length = sw) (ha : ∀ r ∈ a, r.length = aw)
    (hw : sw + aw = C.fc1.in_features) :
    ∃ out, C.forward training (.two s) (.two a) = some out ∧
      out.length = s.length ∧
      ∀ r ∈ out, r.length = C.fc3.out_features := by
  obtain ⟨hf1, hf2, hf3, hbn, h21, h32⟩ := hC
  have ecat : catDim1 (.two s) (.two a) = some (List.zipWith (· ++ ·) s a) := by
    show (if s.length = a.length then some (List.zipWith (· ++ ·) s a) else none) = _
    rw [if_pos hb]
  have hxs : ∀ r ∈ List.zipWith (· ++ ·) s a, r.length = C.fc1.in_features := by
    intro r hr
    rcases mem_zipWith_append s a r hr with ⟨x, hx, y, hy, hr0⟩
    rw [hr0, List.length_append, hs x hx, ha y hy, hw]
  have hxslen : (List.zipWith (· ++ ·) s a).length = s.length := by
    rw [List.length_zipWith, ← hb, min_self]
  have e1 := C.fc1.forward_some _ hxs
  have h1row : ∀ r ∈ (List.zipWith (· ++ ·) s a).map C.fc1.applyRow,
      r.length = C.fc1.out_features := by
    intro r hr
    rcases List.mem_map.mp hr with ⟨r0, _, hmap⟩
    rw [← hmap]
    exact C.fc1.applyRow_length r0 hf1.1 hf1.2.2
  have x1row : ∀ r ∈ matMap relu ((List.zipWith (· ++ ·) s a).map C.fc1.applyRow),
      r.length = C.bn.num_features := by
    rw [hbn]
    exact matMap_row_length _ _ _ h1row
  obtain ⟨xb, ebn, xblen, xbrow⟩ := C.bn.forward_stats_some training _ x1row
  have xbin : ∀ r ∈ xb, r.length = C.fc2.in_features := by
    intro r hr
    rw [h21, ← hbn]
    exact xbrow r hr
  have e2 := C.fc2.forward_some xb xbin
  have h2row : ∀ r ∈ xb.map C.fc2.applyRow, r.length = C.fc2.out_features := by
    intro r hr
    rcases List.mem_map.mp hr with ⟨r0, _, hmap⟩
    rw [← hmap]
    exact C.fc2.applyRow_length r0 hf2.1 hf2.2.2
  have x2row : ∀ r ∈ matMap relu (xb.map C.fc2.applyRow), r.length = C.fc3.in_features := by
    rw [h32]
    exact matMap_row_length _ _ _ h2row
  have e3 := C.fc3.forward_some _ x2row
  refine ⟨(matMap relu (xb.map C.fc2.applyRow)).map C.fc3.applyRow, ?_, ?_, ?_⟩
  · show (catDim1 (.two s) (.two a)).bind _ = _
    rw [ecat, Option.some_bind, e1, Option.some_bind, ebn, Option.some_bind, e2,
      Option.some_bind, e3]
  · rw [List.length_map, matMap_length, List.length_map, xblen, matMap_length,
      List.length_map, hxslen]
  · intro r hr
    rcases List.mem_map.mp hr with ⟨r0, _, hmap⟩
    rw [← hmap]
    exact C.fc3.applyRow_length r0 hf3.1 hf3.2.2

theorem Actor.forward_eq_rows (A : Actor) (training : Bool) (t : Tensor) :
    A.forward training t = A.forward training (.two t.rows) := by
  cases t <;> rfl

/-- C1: for every `Actor_Critics` ensemble built with positive `n_agents`,
`state_size`, `action_size`, both critics are configured with input width
`(state_size + action_size) * n_agents`, and both actors with input width
`state_size` and output width `action_size`. -/
theorem C1_actor_critics_dims (n s a h1 h2 : ℕ) (seed : ℤ) (g : ℤ → ℕ → ℕ → ℕ → ℝ)
    (_hn : 0 < n) (_hs : 0 < s) (_ha : 0 < a) :
    (mkActor_Critics n s a h1 h2 seed g).critic_local.fc1.in_features = (s + a) * n ∧
    (mkActor_Critics n s a h1 h2 seed g).critic_target.fc1.in_features = (s + a) * n ∧
    (mkActor_Critics n s a h1 h2 seed g).actor_local.fc1.in_features = s ∧
    (mkActor_Critics n s a h1 h2 seed g).actor_local.fc3.out_features = a ∧
    (mkActor_Critics n s a h1 h2 seed g).actor_target.fc1.in_features = s ∧
    (mkActor_Critics n s a h1 h2 seed g).actor_target.fc3.out_features = a :=
  ⟨rfl, rfl, rfl, rfl, rfl, rfl⟩

/-- Witness for C1 at `n_agents = 2`, `state_size = 24`, `action_size = 2`:
the configured critic input width is `(24 + 2) * 2 = 52`. -/
theorem C1_actor_critics_dims_witness :
    (mkActor_Critics 2 24 2 256 256 0 constHalf4).critic_local.fc1.in_features = 52 := by
  have h := (C1_actor_critics_dims 2 24 2 256 256 0 constHalf4
    (by decide) (by decide) (by decide)).1
  simpa using h

/-- C5: with a fixed seed, `actor_local` and `actor_target` are constructed
with identical parameter values, and so are `critic_local` and
`critic_target`: each constructor re-seeds the global generator with the
same seed, so the two runs of the construction read the same draw
stream. -/
theorem C5_seed_determinism (n s a h1 h2 : ℕ) (seed : ℤ) (g : ℤ → ℕ → ℕ → ℕ → ℝ) :
    (mkActor_Critics n s a h1 h2 seed g).actor_local =
      (mkActor_Critics n s a h1 h2 seed g).actor_target ∧
    (mkActor_Critics n s a h1 h2 seed g).critic_local =
      (mkActor_Critics n s a h1 h2 seed g).critic_target :=
  ⟨rfl, rfl⟩

/-- C8: `reset_parameters` rewrites only the three weight tensors; the three
bias vectors, the batch-norm stage, and the configured layer widths of both
Actor and Critic are left untouched. -/
theorem C8_reset_parameters_frame (A : Actor) (C : Critic) (a1 a2 a3 c1 c2 c3 : ℕ → ℕ → ℝ) :
    (A.reset_parameters a1 a2 a3).fc1.bias = A.fc1.bias ∧
    (A.reset_parameters a1 a2 a3).fc2.bias = A.fc2.bias ∧
    (A.reset_parameters a1 a2 a3).fc3.bias = A.fc3.bias ∧
    (A.reset_parameters a1 a2 a3).bn = A.bn ∧
    (A.reset_parameters a1 a2 a3).fc1.in_features = A.fc1.in_features ∧
    (A.reset_parameters a1 a2 a3).fc2.in_features = A.fc2.in_features ∧
    (A.reset_parameters a1 a2 a3).fc3.in_features = A.fc3.in_features ∧
    (A.reset_parameters a1 a2 a3).fc1.out_features = A.fc1.out_features ∧
    (A.reset_parameters a1 a2 a3).fc2.out_features = A.fc2.out_features ∧
    (A.reset_parameters a1 a2 a3).fc3.out_features = A.fc3.out_features ∧
    (C.reset_parameters c1 c2 c3).fc1.bias = C.fc1.bias ∧
    (C.reset_parameters c1 c2 c3).fc2.bias = C.fc2.bias ∧
    (C.reset_parameters c1 c2 c3).fc3.bias = C.fc3.bias ∧
    (C.reset_parameters c1 c2 c3).bn = C.bn :=
  ⟨rfl, rfl, rfl, rfl, rfl, rfl, rfl, rfl, rfl, rfl, rfl, rfl, rfl, rfl⟩

/-- C10: `Critic.forward` performs no 1-D promotion: the concatenation step
requires two 2-D tensors, so any 1-D state or action input fails there. -/
theorem C10_critic_forward_one_dim (C : Critic) (training : Bool) (s a : List ℝ) (m : Mat) :
    C.forward training (.one s) (.one a) = none ∧
    C.forward training (.one s) (.two m) = none ∧
    C.forward training (.two m) (.one a) = none :=
  ⟨rfl, rfl, rfl⟩

/-- C4: `hidden_init` on a layer whose weight has first dimension `d ≥ 1`
returns exactly `(-1/sqrt d, 1/sqrt d)`, `d` taken along the first (output
width) dimension of the stored weight; at `d = 256` this is
`(-0.0625, 0.0625)`.  The embedding is a pure function of the layer. -/
theorem C4_hidden_init_spec (l : Linear) (d : ℕ) (hd : l.weight.length = d)
    (hpos : 1 ≤ d) :
    hidden_init l = (-(1 / Real.sqrt (d : ℝ)), 1 / Real.sqrt (d : ℝ)) ∧
    (d = 256 → hidden_init l = (-(1 / 16 : ℝ), (1 / 16 : ℝ))) := by
  subst hd
  refine ⟨rfl, ?_⟩
  intro h256
  have hs : Real.sqrt ((l.weight.length : ℕ) : ℝ) = 16 := by
    rw [h256, show ((256 : ℕ) : ℝ) = (16 : ℝ) ^ 2 by norm_num]
    exact Real.sqrt_sq (by norm_num)
  have he : hidden_init l =
      (-(1 / Real.sqrt ((l.weight.length : ℕ) : ℝ)),
        1 / Real.sqrt ((l.weight.length : ℕ) : ℝ)) := rfl
  rw [he, hs]

/-- Witness for C4 at a concrete layer with 256 weight rows. -/
theorem C4_hidden_init_spec_witness :
    bigLayer.weight.length = 256 ∧
    hidden_init bigLayer = (-(1 / 16 : ℝ), (1 / 16 : ℝ)) := by
  have hlen : bigLayer.weight.length = 256 := by
    simp [bigLayer, mkLinear, fillMat]
  exact ⟨hlen, (C4_hidden_init_spec bigLayer 256 hlen (by norm_num)).2 rfl⟩

/-- C2: for any well-formed Actor and any input tensor (1-D or 2-D) of the
configured input width, `forward` succeeds and returns a batch of the same
batch size whose rows have the configured output width, with every element
in `[-1, 1]` (the final tanh squashing). -/
theorem C2_actor_forward_range (A : Actor) (hA : A.WF) (training : Bool) (t : Tensor)
    (ht : ∀ r ∈ t.rows, r.length = A.fc1.in_features) :
    ∃ out, A.forward training t = some out ∧
      out.length = t.rows.length ∧
      (∀ r ∈ out, r.length = A.fc3.out_features) ∧
      (∀ r ∈ out, ∀ x ∈ r, -1 ≤ x ∧ x ≤ 1) := by
  rw [A.forward_eq_rows training t]
  exact actor_forward_two_spec A hA training t.rows ht

/-- Witness for C2 at a concrete Actor and batch. -/
theorem C2_actor_forward_range_witness :
    ∃ out, testActor.forward true (.two [[1, 0, -1]]) = some out ∧
      out.length = 1 ∧ (∀ r ∈ out, r.length = 2) ∧
      (∀ r ∈ out, ∀ x ∈ r, -1 ≤ x ∧ x ≤ 1) := by
  have h := C2_actor_forward_range testActor (mkActor_WF 3 2 2 2 constHalf3) true
    (.two [[1, 0, -1]])
    (by
      intro r hr
      simp only [Tensor.rows, List.mem_singleton] at hr
      subst hr
      rfl)
  simpa [Tensor.rows, show testActor.fc3.out_features = 2 from rfl] using h

/-- C6: `Actor.forward` promotes a 1-D input to a batch of one before any
computation, so its result agrees with the 2-D input `[v]`, and for a
well-formed Actor of the right input width both produce a `1 × output_dim`
result. -/
theorem C6_actor_forward_promote (A : Actor) (hA : A.WF) (training : Bool) (v : List ℝ)
    (hv : v.length = A.fc1.in_features) :
    A.forward training (.one v) = A.forward training (.two [v]) ∧
    ∃ out, A.forward training (.one v) = some out ∧ out.length = 1 ∧
      ∀ r ∈ out, r.length = A.fc3.out_features := by
  have hm : ∀ r ∈ ([v] : Mat), r.length = A.fc1.in_features := by
    intro r hr
    rw [List.mem_singleton] at hr
    subst hr
    exact hv
  obtain ⟨out, e, hl, hrow, _⟩ := actor_forward_two_spec A hA training [v] hm
  exact ⟨rfl, out, e, by rw [hl]; rfl, hrow⟩

/-- Witness for C6 at a concrete Actor and 1-D input. -/
theorem C6_actor_forward_promote_witness :
    testActor.forward false (.one [1, 0, -1]) =
      testActor.forward false (.two [[1, 0, -1]]) ∧
    ∃ out, testActor.forward false (.one [1, 0, -1]) = some out ∧ out.length = 1 ∧
      ∀ r ∈ out, r.length = testActor.fc3.out_features :=
  C6_actor_forward_promote testActor (mkActor_WF 3 2 2 2 constHalf3) false [1, 0, -1] rfl

/-- C7: a constructed Critic, fed batch-aligned 2-D state and action whose
widths sum to its configured input width, returns a `batch × 1` tensor (the
third layer has output width 1 and no squashing restricts its values). -/
theorem C7_critic_forward_shape (inF hh1 hh2 : ℕ) (g : ℕ → ℕ → ℕ → ℝ) (training : Bool)
    (s a : Mat) (hb : s.length = a.length) (sw aw : ℕ)
    (hs : ∀ r ∈ s, r.length = sw) (ha : ∀ r ∈ a, r.length = aw)
    (hw : sw + aw = inF) :
    ∃ out, (mkCritic inF hh1 hh2 g).forward training (.two s) (.two a) = some out ∧
      out.length = s.length ∧ ∀ r ∈ out, r.length = 1 := by
  obtain ⟨out, e, hl, hrow⟩ := critic_forward_two_spec (mkCritic inF hh1 hh2 g)
    (mkCritic_WF inF hh1 hh2 g) training s a hb sw aw hs ha hw
  refine ⟨out, e, hl, fun r hr => ?_⟩
  rw [hrow r hr]
  rfl

/-- Witness for C7 at a concrete Critic and batch. -/
theorem C7_critic_forward_shape_witness :
    ∃ out, (mkCritic 4 2 2 constHalf3).forward false
        (.two [[1, 0]]) (.two [[0, 1]]) = some out ∧
      out.length = 1 ∧ ∀ r ∈ out, r.length = 1 := by
  have h := C7_critic_forward_shape 4 2 2 constHalf3 false [[1, 0]] [[0, 1]] rfl 2 2
    (by
      intro r hr
      rw [List.mem_singleton] at hr
      subst hr
      rfl)
    (by
      intro r hr
      rw [List.mem_singleton] at hr
      subst hr
      rfl)
    (by norm_num)
  simpa using h

/-- C9: a 1-D Actor input of the wrong length, a nonempty 2-D Actor input of
the wrong width, and Critic inputs with mismatched batch sizes all make the
forward pass fail with a framework dimension error (`none`), never a
truncated or padded result. -/
theorem C9_forward_dim_mismatch (A : Actor) (training : Bool) (v : List ℝ)
    (hv : v.length ≠ A.fc1.in_features)
    (m : Mat) (w : ℕ) (hm : ∀ r ∈ m, r.length = w) (hne : m ≠ [])
    (hw : w ≠ A.fc1.in_features)
    (C : Critic) (s a : Mat) (hb : s.length ≠ a.length) :
    A.forward training (.one v) = none ∧
    A.forward training (.two m) = none ∧
    C.forward training (.two s) (.two a) = none := by
  refine ⟨?_, ?_, ?_⟩
  · have e := A.fc1.forward_none [v] v (List.mem_singleton_self v) hv
    show (A.fc1.forward [v]).bind _ = none
    rw [e]
    rfl
  · obtain ⟨r0, hr0⟩ := List.exists_mem_of_ne_nil m hne
    have e := A.fc1.forward_none m r0 hr0 (by rw [hm r0 hr0]; exact hw)
    show (A.fc1.forward m).bind _ = none
    rw [e]
    rfl
  · have e : catDim1 (.two s) (.two a) = none := by
      show (if s.length = a.length then some (List.zipWith (· ++ ·) s a) else none) = none
      rw [if_neg hb]
    show (catDim1 (.two s) (.two a)).bind _ = none
    rw [e]
    rfl

/-- Witness for C9 at concrete mismatched inputs. -/
theorem C9_forward_dim_mismatch_witness :
    testActor.forward false (.one [1, 0]) = none ∧
    testActor.forward false (.two [[1, 0]]) = none ∧
    testCritic.forward false (.two [[1, 0, 0, 0]]) (.two []) = none := by
  have h3 : testActor.fc1.in_features = 3 := rfl
  exact C9_forward_dim_mismatch testActor false [1, 0] (by rw [h3]; norm_num)
    [[1, 0]] 2
    (by
      intro r hr
      rw [List.mem_singleton] at hr
      subst hr
      rfl)
    (by simp) (by rw [h3]; norm_num)
    testCritic [[1, 0, 0, 0]] [] (by simp)

theorem uniformFill_bounds (m : Mat) (lo hi : ℝ) (d : ℕ → ℕ → ℝ)
    (hlh : lo ≤ hi) (hd : ∀ i j, 0 ≤ d i j ∧ d i j ≤ 1) :
    InIcc lo hi (fillLike m (fun i j => uniformSample lo hi (d i j))) := by
  intro r hr x hx
  rcases mem_mem_fillLike m _ r x hr hx with ⟨i, j, hxe⟩
  rw [hxe]
  exact uniformSample_mem lo hi (d i j) hlh (hd i j).1 (hd i j).2

/-- C3: after `reset_parameters` with unit-interval RNG draws, every weight
of the third layer of either network lies in `[-0.003, 0.003]`, and every
weight of layers 1 and 2 lies in `[-1/sqrt d, 1/sqrt d]` where `d` is the
first dimension of that layer's own weight tensor; the Critic applies the
identical policy. -/
theorem C3_reset_parameters_bounds (A : Actor) (C : Critic) (a1 a2 a3 c1 c2 c3 : ℕ → ℕ → ℝ)
    (ha1 : ∀ i j, 0 ≤ a1 i j ∧ a1 i j ≤ 1) (ha2 : ∀ i j, 0 ≤ a2 i j ∧ a2 i j ≤ 1)
    (ha3 : ∀ i j, 0 ≤ a3 i j ∧ a3 i j ≤ 1) (hc1 : ∀ i j, 0 ≤ c1 i j ∧ c1 i j ≤ 1)
    (hc2 : ∀ i j, 0 ≤ c2 i j ∧ c2 i j ≤ 1) (hc3 : ∀ i j, 0 ≤ c3 i j ∧ c3 i j ≤ 1) :
    InIcc (-(3 / 1000)) (3 / 1000) (A.reset_parameters a1 a2 a3).fc3.weight ∧
    InIcc (-(1 / Real.sqrt (((A.reset_parameters a1 a2 a3).fc1.weight.length : ℕ) : ℝ)))
      (1 / Real.sqrt (((A.reset_parameters a1 a2 a3).fc1.weight.length : ℕ) : ℝ))
      (A.reset_parameters a1 a2 a3).fc1.weight ∧
    InIcc (-(1 / Real.sqrt (((A.reset_parameters a1 a2 a3).fc2.weight.length : ℕ) : ℝ)))
      (1 / Real.sqrt (((A.reset_parameters a1 a2 a3).fc2.weight.length : ℕ) : ℝ))
      (A.reset_parameters a1 a2 a3).fc2.weight ∧
    InIcc (-(3 / 1000)) (3 / 1000) (C.reset_parameters c1 c2 c3).fc3.weight ∧
    InIcc (-(1 / Real.sqrt (((C.reset_parameters c1 c2 c3).fc1.weight.length : ℕ) : ℝ)))
      (1 / Real.sqrt (((C.reset_parameters c1 c2 c3).fc1.weight.length : ℕ) : ℝ))
      (C.reset_parameters c1 c2 c3).fc1.weight ∧
    InIcc (-(1 / Real.sqrt (((C.reset_parameters c1 c2 c3).fc2.weight.length : ℕ) : ℝ)))
      (1 / Real.sqrt (((C.reset_parameters c1 c2 c3).fc2.weight.length : ℕ) : ℝ))
      (C.reset_parameters c1 c2 c3).fc2.weight := by
  have eA3 : (A.reset_parameters a1 a2 a3).fc3.weight = fillLike A.fc3.weight
      (fun i j => uniformSample (-(3 / 1000)) (3 / 1000) (a3 i j)) := rfl
  have eA1 : (A.reset_parameters a1 a2 a3).fc1.weight = fillLike A.fc1.weight
      (fun i j => uniformSample (hidden_init A.fc1).1 (hidden_init A.fc1).2 (a1 i j)) := rfl
  have eA2 : (A.reset_parameters a1 a2 a3).fc2.weight = fillLike A.fc2.weight
      (fun i j => uniformSample (hidden_init A.fc2).1 (hidden_init A.fc2).2 (a2 i j)) := rfl
  have eC3 : (C.reset_parameters c1 c2 c3).fc3.weight = fillLike C.fc3.weight
      (fun i j => uniformSample (-(3 / 1000)) (3 / 1000) (c3 i j)) := rfl
  have eC1 : (C.reset_parameters c1 c2 c3).fc1.weight = fillLike C.fc1.weight
      (fun i j => uniformSample (hidden_init C.fc1).1 (hidden_init C.fc1).2 (c1 i j)) := rfl
  have eC2 : (C.reset_parameters c1 c2 c3).fc2.weight = fillLike C.fc2.weight
      (fun i j => uniformSample (hidden_init C.fc2).1 (hidden_init C.fc2).2 (c2 i j)) := rfl
  refine ⟨?_, ?_, ?_, ?_, ?_, ?_⟩
  · rw [eA3]
    exact uniformFill_bounds _ _ _ _ (by norm_num) ha3
  · rw [eA1, length_fillLike]
    have h := uniformFill_bounds A.fc1.weight (hidden_init A.fc1).1 (hidden_init A.fc1).2
      a1 (hidden_init_le A.fc1) ha1
    rw [hidden_init_fst, hidden_init_snd] at h
    exact h
  · rw [eA2, length_fillLike]
    have h := uniformFill_bounds A.fc2.weight (hidden_init A.fc2).1 (hidden_init A.fc2).2
      a2 (hidden_init_le A.fc2) ha2
    rw [hidden_init_fst, hidden_init_snd] at h
    exact h
  · rw [eC3]
    exact uniformFill_bounds _ _ _ _ (by norm_num) hc3
  · rw [eC1, length_fillLike]
    have h := uniformFill_bounds C.fc1.weight (hidden_init C.fc1).1 (hidden_init C.fc1).2
      c1 (hidden_init_le C.fc1) hc1
    rw [hidden_init_fst, hidden_init_snd] at h
    exact h
  · rw [eC2, length_fillLike]
    have h := uniformFill_bounds C.fc2.weight (hidden_init C.fc2).1 (hidden_init C.fc2).2
      c2 (hidden_init_le C.fc2) hc2
    rw [hidden_init_fst, hidden_init_snd] at h
    exact h

/-- Witness for C3 at a concrete Actor and Critic with constant draws. -/
theorem C3_reset_parameters_bounds_witness :
    InIcc (-(3 / 1000)) (3 / 1000)
      (testActor.reset_parameters constHalf2 constHalf2 constHalf2).fc3.weight ∧
    InIcc (-(3 / 1000)) (3 / 1000)
      (testCritic.reset_parameters constHalf2 constHalf2 constHalf2).fc3.weight := by
  have hu : ∀ i j : ℕ, 0 ≤ constHalf2 i j ∧ constHalf2 i j ≤ 1 := by
    intro i j
    constructor <;> norm_num [constHalf2]
  have h := C3_reset_parameters_bounds testActor testCritic
    constHalf2 constHalf2 constHalf2 constHalf2 constHalf2 constHalf2
    hu hu hu hu hu hu
  exact ⟨h.1, h.2.2.2.1⟩
